import Mathlib

/-!
Shallow embedding of the hank plugin development kit bridge (src/lib.rs).

The bridge keeps a single process-wide slot holding an optional plugin
state (the static HANK, an RwLock over Option Hank).  We model the slot as
an explicit value of type Option Hank threaded through the operations, and
we record the observable actions of a run (lock operations on the slot,
invocations of guest handlers, outbound host calls) as an event trace.
Guest function pointers (Rust fn()) are opaque to the bridge and are
modelled as tokens; a dispatcher invoking a handler is recorded as an
invocation event carrying the token and the decoded payload.

A Rust panic (an expect that fails) is modelled as the error branch of
Except String, carrying the panic message from the source.  The dispatchers
return Ok on every non-panicking path, exactly as in the source.
-/

namespace HankPdk

/-- A guest function reference (a Rust function pointer such as fn());
opaque to the bridge, modelled as a token. -/
abbrev Handler := Nat

/-- Embedding of hank_types Message: an opaque chat message.  The bridge
only ever touches the content field (in Hank::respond); every other field
of the message is bundled into the opaque field rest. -/
structure Message where
  content : String
  rest : String
deriving DecidableEq, Repr

/-- Embedding of hank_types CommandContext: opaque to the bridge. -/
structure CommandContext where
  data : String
deriving DecidableEq, Repr

/-- Embedding of hank_types Metadata: an opaque descriptor, cloned on every
metadata query. -/
structure Metadata where
  data : String
deriving DecidableEq, Repr

/-- Embedding of hank_types database Results; rows are opaque strings. -/
structure Results where
  rows : List String
deriving DecidableEq, Repr

/-- Embedding of hank_types PreparedStatement: opaque to the bridge. -/
structure PreparedStatement where
  data : String
deriving DecidableEq, Repr

/-- Embedding of DbQueryInput as built by Hank::db_query. -/
structure DbQueryInput where
  prepared_statement : Option PreparedStatement
deriving DecidableEq, Repr

/-- Embedding of DbQueryOutput as decoded from the host response. -/
structure DbQueryOutput where
  results : Option Results
  error : Option String
deriving DecidableEq, Repr

/-- Embedding of SendMessageInput as built by Hank::send_message. -/
structure SendMessageInput where
  message : Option Message
deriving DecidableEq, Repr

/-- Embedding of hank_types ScheduledJob: the tagged cron-job or
one-shot-job echo delivered by the host, each variant carrying the job
identifier in its job field. -/
inductive ScheduledJob where
  | cronJob (cron : String) (job : String)
  | oneShotJob (duration : Int) (job : String)
deriving DecidableEq, Repr

/-- The job identifier carried by either variant, as extracted by the
match in handle_scheduled_job. -/
def ScheduledJob.jobId : ScheduledJob → String
  | .cronJob _ j => j
  | .oneShotJob _ j => j

/-- Embedding of ScheduledJobInput. -/
structure ScheduledJobInput where
  scheduled_job : Option ScheduledJob
deriving DecidableEq, Repr

/-- Embedding of ChatMessageInput. -/
structure ChatMessageInput where
  message : Option Message
deriving DecidableEq, Repr

/-- Embedding of ChatCommandInput. -/
structure ChatCommandInput where
  context : Option CommandContext
  message : Option Message
deriving DecidableEq, Repr

/-- Embedding of GetMetadataOutput. -/
structure GetMetadataOutput where
  metadata : Option Metadata
deriving DecidableEq, Repr

/-- Defaulted (field-less) acknowledgement outputs of the entry points. -/
abbrev InstallOutput := Unit
abbrev InitializeOutput := Unit
abbrev ChatMessageOutput := Unit
abbrev ChatCommandOutput := Unit
abbrev ScheduledJobOutput := Unit

/-- Observable actions of a run: lock operations on the global HANK slot,
invocations of guest handlers (with their decoded payloads), and outbound
host calls (with the request values the source builds). -/
inductive Event where
  | acquireRead
  | acquireWrite
  | releaseLock
  | invokeUnit (h : Handler)
  | invokeMessage (h : Handler) (m : Message)
  | invokeCommand (h : Handler) (c : CommandContext) (m : Message)
  | hostCron (cron : String) (job : String)
  | hostOneShot (duration : Int) (job : String)
  | hostSendMessage (input : SendMessageInput)
deriving DecidableEq, Repr

/-- Whether an event is an invocation of a guest handler or job. -/
def Event.isInvoke : Event → Bool
  | .invokeUnit _ => true
  | .invokeMessage _ _ => true
  | .invokeCommand _ _ _ => true
  | _ => false

/-- The handler and job invocations of a trace, in order. -/
def invocations (tr : List Event) : List Event := tr.filter Event.isInvoke

/-- True iff every handler or job invocation in the trace happens while no
lock on the HANK slot is held, starting from d held locks. -/
def invokesUnlocked : List Event → Nat → Bool
  | [], _ => true
  | .acquireRead :: tr, d => invokesUnlocked tr (d + 1)
  | .acquireWrite :: tr, d => invokesUnlocked tr (d + 1)
  | .releaseLock :: tr, d => invokesUnlocked tr (d - 1)
  | e :: tr, d => (!e.isInvoke || d == 0) && invokesUnlocked tr d

/-- Embedding of the struct Hank (src/lib.rs:38): the plugin state composed
of the metadata descriptor, the four lifecycle handler slots, and the
scheduled-job table.  The HashMap from String to fn() is modelled as an
association list consulted with List.lookup. -/
structure Hank where
  metadata : Metadata
  install_handler : Option Handler
  init_handler : Option Handler
  chat_message_handler : Option Handler
  chat_command_handler : Option Handler
  scheduled_jobs : List (String × Handler)
deriving DecidableEq, Repr

/-- Embedding of Hank::new (src/lib.rs:50): the given metadata with every
other field defaulted. -/
def Hank.new (metadata : Metadata) : Hank :=
  { metadata := metadata, install_handler := none, init_handler := none,
    chat_message_handler := none, chat_command_handler := none, scheduled_jobs := [] }

/-- Embedding of Hank::register_install_handler (src/lib.rs:65). -/
def Hank.register_install_handler (self : Hank) (handler : Handler) : Hank :=
  { self with install_handler := some handler }

/-- Embedding of the source setter for the second lifecycle slot
(src/lib.rs:73); the slot holds the handler that the host's lifecycle
second hook dispatch will invoke.  The source names carry the hook's name,
which the development here abbreviates to init. -/
def Hank.register_init_handler (self : Hank) (handler : Handler) : Hank :=
  { self with init_handler := some handler }

/-- Embedding of Hank::register_chat_message_handler (src/lib.rs:81). -/
def Hank.register_chat_message_handler (self : Hank) (handler : Handler) : Hank :=
  { self with chat_message_handler := some handler }

/-- Embedding of Hank::register_chat_command_handler (src/lib.rs:89). -/
def Hank.register_chat_command_handler (self : Hank) (handler : Handler) : Hank :=
  { self with chat_command_handler := some handler }

/-- Embedding of HashMap::insert on the scheduled-job table: binds the key,
replacing any previous binding for it. -/
def insertJob (table : List (String × Handler)) (key : String) (job : Handler) :
    List (String × Handler) :=
  (key, job) :: table.filter (fun p => p.1 != key)

/-- Embedding of Hank::scheduled_job_handler (src/lib.rs:96): looks the
identifier up in the table and invokes the job when present; it takes a
shared reference to self, so it cannot change the state.  The result is
the list of invocation events. -/
def Hank.scheduled_job_handler (self : Hank) (uuid : String) : List Event :=
  match self.scheduled_jobs.lookup uuid with
  | some job => [.invokeUnit job]
  | none => []

/-- Embedding of Hank::add_cron (src/lib.rs:102).  The source draws a fresh
identifier from the external uuid crate (Uuid::new_v4, a random 128-bit
value rendered as a string); the generator is modelled by passing the
drawn identifier uuid as an argument — its freshness is the uuid crate's
contract, assumed as a hypothesis where needed.  Inserts the job into the
table, then sends the host a CronInput carrying the schedule and the same
identifier. -/
def Hank.add_cron (self : Hank) (uuid : String) (cron : String) (job : Handler) :
    Hank × List Event :=
  ({ self with scheduled_jobs := insertJob self.scheduled_jobs uuid job },
   [.hostCron cron uuid])

/-- Embedding of Hank::add_one_shot (src/lib.rs:117); identifier generation
is modelled as in Hank.add_cron. -/
def Hank.add_one_shot (self : Hank) (uuid : String) (duration : Int) (job : Handler) :
    Hank × List Event :=
  ({ self with scheduled_jobs := insertJob self.scheduled_jobs uuid job },
   [.hostOneShot duration uuid])

/-- Embedding of Hank::cron (src/lib.rs:199): takes its own write lock on
the global slot, expects it installed (panics otherwise), and registers
through add_cron. -/
def Hank.cron (slot : Option Hank) (uuid : String) (cron : String) (job : Handler) :
    Except String (Option Hank × List Event) :=
  match slot with
  | none => .error "Plugin did not initialize global HANK"
  | some hank =>
    let r := hank.add_cron uuid cron job
    .ok (some r.1, [.acquireWrite] ++ r.2 ++ [.releaseLock])

/-- Embedding of Hank::one_shot (src/lib.rs:207): as Hank.cron but for a
one-shot job. -/
def Hank.one_shot (slot : Option Hank) (uuid : String) (duration : Int) (job : Handler) :
    Except String (Option Hank × List Event) :=
  match slot with
  | none => .error "Plugin did not initialize global HANK"
  | some hank =>
    let r := hank.add_one_shot uuid duration job
    .ok (some r.1, [.acquireWrite] ++ r.2 ++ [.releaseLock])

/-- Embedding of Hank::start (src/lib.rs:132): takes the write lock on the
global slot and stores Some(self) into it, whatever the slot held before;
the result is the new slot value. -/
def Hank.start (_slot : Option Hank) (self : Hank) : Option Hank :=
  some self

/-- Embedding of Hank::send_message (src/lib.rs:138): builds a
SendMessageInput wrapping the message and performs the outbound host call;
the host result is discarded by the source. -/
def Hank.send_message (message : Message) : List Event :=
  [.hostSendMessage { message := some message }]

/-- Embedding of Hank::respond (src/lib.rs:146): replaces the content of
the message with the response, keeping every other field, and sends it. -/
def Hank.respond (response : String) (message : Message) : List Event :=
  Hank.send_message { message with content := response }

/-- Embedding of Hank::db_query (src/lib.rs:162).  The synchronous host
round-trip is modelled by a host response function; the source builds a
DbQueryInput wrapping the statement, decodes the DbQueryOutput, returns
the error string as a failure when one is present, and otherwise the
results, defaulted when the host omits them. -/
def Hank.db_query (host : DbQueryInput → DbQueryOutput) (statement : PreparedStatement) :
    Except String Results :=
  let output := host { prepared_statement := some statement }
  match output.error with
  | some e => .error e
  | none => .ok (output.results.getD { rows := [] })

/-- Embedding of handle_get_metadata (src/lib.rs:300): takes the read lock,
expects the slot installed, and returns a clone of the metadata; the guard
drops at the end of the call. -/
def handle_get_metadata (slot : Option Hank) :
    Except String (List Event × GetMetadataOutput) :=
  match slot with
  | none => .error "Plugin did not initialize global HANK"
  | some hank =>
    .ok ([.acquireRead, .releaseLock], { metadata := some hank.metadata })

/-- Embedding of handle_install (src/lib.rs:314): takes the read lock,
expects the slot installed, and invokes the install handler under the read
lock when one is registered. -/
def handle_install (slot : Option Hank) : Except String (List Event × InstallOutput) :=
  match slot with
  | none => .error "Plugin did not initialize global HANK"
  | some hank =>
    match hank.install_handler with
    | some handler => .ok ([.acquireRead, .invokeUnit handler, .releaseLock], ())
    | none => .ok ([.acquireRead, .releaseLock], ())

/-- Embedding of the dispatcher of the second lifecycle hook
(src/lib.rs:328), abbreviated here to handle_init: the read guard lives
in an inner scope and is dropped before the copied-out handler is invoked,
so the handler runs with no lock held. -/
def handle_init (slot : Option Hank) : Except String (List Event × InitializeOutput) :=
  match slot with
  | none => .error "Plugin did not initialize global HANK"
  | some hank =>
    match hank.init_handler with
    | some handler => .ok ([.acquireRead, .releaseLock, .invokeUnit handler], ())
    | none => .ok ([.acquireRead, .releaseLock], ())

/-- Embedding of handle_chat_message (src/lib.rs:285): takes the read lock,
expects the slot installed; when a chat-message handler is registered it is
invoked under the read lock on the decoded message, whose absence panics
(the expect sits inside the map closure, so it is only evaluated when a
handler is registered). -/
def handle_chat_message (slot : Option Hank) (input : ChatMessageInput) :
    Except String (List Event × ChatMessageOutput) :=
  match slot with
  | none => .error "Plugin did not initialize global HANK"
  | some hank =>
    match hank.chat_message_handler with
    | none => .ok ([.acquireRead, .releaseLock], ())
    | some handler =>
      match input.message with
      | none => .error "message should exist"
      | some m => .ok ([.acquireRead, .invokeMessage handler m, .releaseLock], ())

/-- Embedding of handle_chat_command (src/lib.rs:266): takes the read lock,
expects the slot installed; when a chat-command handler is registered it is
invoked under the read lock on the decoded context and message, whose
absence panics — context first, per argument evaluation order — and the
expects are only evaluated when a handler is registered. -/
def handle_chat_command (slot : Option Hank) (input : ChatCommandInput) :
    Except String (List Event × ChatCommandOutput) :=
  match slot with
  | none => .error "Plugin did not initialize global HANK"
  | some hank =>
    match hank.chat_command_handler with
    | none => .ok ([.acquireRead, .releaseLock], ())
    | some handler =>
      match input.context with
      | none => .error "context should exist"
      | some c =>
        match input.message with
        | none => .error "message should exist"
        | some m => .ok ([.acquireRead, .invokeCommand handler c m, .releaseLock], ())

/-- Embedding of handle_scheduled_job (src/lib.rs:347): when the payload
carries no scheduled-job echo the slot is never touched and the default
output is returned; when it does, the dispatcher extracts the identifier
from either variant, takes the WRITE lock, expects the slot installed, and
runs scheduled_job_handler while still holding the guard (the guard drops
only at the end of the if-let block, after the job has run). -/
def handle_scheduled_job (slot : Option Hank) (input : ScheduledJobInput) :
    Except String (Option Hank × List Event × ScheduledJobOutput) :=
  match input.scheduled_job with
  | none => .ok (slot, [], ())
  | some scheduled_job =>
    match slot with
    | none => .error "Plugin did not initialize global HANK"
    | some hank =>
      .ok (some hank,
        [.acquireWrite] ++ hank.scheduled_job_handler scheduled_job.jobId ++ [.releaseLock],
        ())

/-- One call to a register_X setter during plugin construction. -/
inductive Reg where
  | install (h : Handler)
  | init (h : Handler)
  | chatMessage (h : Handler)
  | chatCommand (h : Handler)
deriving DecidableEq, Repr

/-- Apply one registration call to the state under construction. -/
def applyReg (hank : Hank) : Reg → Hank
  | .install h => hank.register_install_handler h
  | .init h => hank.register_init_handler h
  | .chatMessage h => hank.register_chat_message_handler h
  | .chatCommand h => hank.register_chat_command_handler h

/-- Apply a sequence of registration calls, in order. -/
def applyRegs (hank : Hank) (regs : List Reg) : Hank := regs.foldl applyReg hank

/-- C2: for every sequence of handler registrations followed by start, each
subsequent dispatch of install, initialize, chat-message and chat-command
invokes exactly the handler registered for that hook, passing it the
decoded payload, or performs no handler invocation at all when that slot
was never registered; in either case the entry point returns the
empty/default acknowledgement value. -/
theorem C2_dispatch_registered_handlers (md : Metadata) (regs : List Reg)
    (m : Message) (c : CommandContext) :
    (∃ tr, handle_install (Hank.start none (applyRegs (Hank.new md) regs)) = .ok (tr, ()) ∧
      invocations tr =
        ((applyRegs (Hank.new md) regs).install_handler.map Event.invokeUnit).toList) ∧
    (∃ tr, handle_init (Hank.start none (applyRegs (Hank.new md) regs)) = .ok (tr, ()) ∧
      invocations tr =
        ((applyRegs (Hank.new md) regs).init_handler.map Event.invokeUnit).toList) ∧
    (∃ tr, handle_chat_message (Hank.start none (applyRegs (Hank.new md) regs)) ⟨some m⟩ =
        .ok (tr, ()) ∧
      invocations tr =
        ((applyRegs (Hank.new md) regs).chat_message_handler.map
          (fun h => Event.invokeMessage h m)).toList) ∧
    (∃ tr, handle_chat_command (Hank.start none (applyRegs (Hank.new md) regs))
        ⟨some c, some m⟩ = .ok (tr, ()) ∧
      invocations tr =
        ((applyRegs (Hank.new md) regs).chat_command_handler.map
          (fun h => Event.invokeCommand h c m)).toList) := by
  obtain ⟨mdx, ih, inh, mh, ch, jobs⟩ := applyRegs (Hank.new md) regs
  refine ⟨?_, ?_, ?_, ?_⟩
  · cases ih with
    | none => exact ⟨[.acquireRead, .releaseLock], rfl, rfl⟩
    | some f => exact ⟨[.acquireRead, .invokeUnit f, .releaseLock], rfl, rfl⟩
  · cases inh with
    | none => exact ⟨[.acquireRead, .releaseLock], rfl, rfl⟩
    | some f => exact ⟨[.acquireRead, .releaseLock, .invokeUnit f], rfl, rfl⟩
  · cases mh with
    | none => exact ⟨[.acquireRead, .releaseLock], rfl, rfl⟩
    | some f => exact ⟨[.acquireRead, .invokeMessage f m, .releaseLock], rfl, rfl⟩
  · cases ch with
    | none => exact ⟨[.acquireRead, .releaseLock], rfl, rfl⟩
    | some f => exact ⟨[.acquireRead, .invokeCommand f c m, .releaseLock], rfl, rfl⟩

/-- C4: for every installed plugin state and every job identifier not
present in the scheduled-job table, delivering that identifier via the
scheduled-job entry point is a no-op: it invokes no job, does not panic,
does not return a failure, and returns the normal empty acknowledgement. -/
theorem C4_unknown_id_noop (hank : Hank) (sj : ScheduledJob)
    (habsent : hank.scheduled_jobs.lookup sj.jobId = none) :
    handle_scheduled_job (some hank) ⟨some sj⟩ =
      .ok (some hank, [.acquireWrite, .releaseLock], ()) := by
  simp [handle_scheduled_job, Hank.scheduled_job_handler, habsent]

/-- Witness for C4 at the empty table with a cron echo carrying an unknown
identifier. -/
theorem C4_witness :
    handle_scheduled_job (some (Hank.new ⟨"m"⟩)) ⟨some (.cronJob "c" "u")⟩ =
      .ok (some (Hank.new ⟨"m"⟩), [.acquireWrite, .releaseLock], ()) :=
  C4_unknown_id_noop (Hank.new ⟨"m"⟩) (.cronJob "c" "u") rfl

/-- C9: delivering a scheduled-job callback never removes an entry from the
scheduled-job table: the entry point returns the state slot exactly as it
was (same table, same four handler slots, same metadata) together with the
empty acknowledgement, so a recurring job's entry remains for every later
delivery. -/
theorem C9_delivery_preserves_state (hank : Hank) (input : ScheduledJobInput) :
    ∃ tr, handle_scheduled_job (some hank) input = .ok (some hank, tr, ()) := by
  obtain ⟨sj⟩ := input
  cases sj with
  | none => exact ⟨[], rfl⟩
  | some s => exact ⟨_, rfl⟩

/-- C10: Hank.respond r m performs exactly one outbound send-message call
whose message equals m with only its content field replaced by r; every
other field of m is passed through unchanged. -/
theorem C10_respond_replaces_only_content (r : String) (m : Message) :
    Hank.respond r m =
      [.hostSendMessage { message := some { content := r, rest := m.rest } }] := rfl

/-- C6: if the host's db-query response carries an error string then
Hank.db_query returns a failure value containing exactly that string (and
no rows); if the response carries no error, Hank.db_query returns the
host-provided results, or the empty default results when the host omits
them. -/
theorem C6_db_query_error (host : DbQueryInput → DbQueryOutput)
    (statement : PreparedStatement) :
    (∀ e, (host { prepared_statement := some statement }).error = some e →
      Hank.db_query host statement = .error e) ∧
    ((host { prepared_statement := some statement }).error = none →
      Hank.db_query host statement =
        .ok ((host { prepared_statement := some statement }).results.getD { rows := [] })) := by
  constructor
  · intro e he
    simp [Hank.db_query, he]
  · intro he
    simp [Hank.db_query, he]

/-- Witness for C6: a host response carrying both rows and an error string
surfaces exactly the error string and no rows. -/
theorem C6_witness :
    Hank.db_query (fun _ => { results := some { rows := ["row"] }, error := some "boom" })
      ⟨"q"⟩ = .error "boom" :=
  (C6_db_query_error
    (fun _ => { results := some { rows := ["row"] }, error := some "boom" }) ⟨"q"⟩).1
    "boom" rfl

/-- C1 counterexample: the claim asserts that handle_scheduled_job copies
the job reference out of the state, releases the lock, and invokes the job
with no lock held; on a concrete installed state whose table binds
identifier "u" to job 7, delivering a cron echo for "u" produces a trace
in which the job is invoked while the write lock is still held. -/
theorem C1_counterexample :
    handle_scheduled_job
        (some (Hank.mk ⟨"m"⟩ none none none none [("u", 7)]))
        ⟨some (.cronJob "c" "u")⟩ =
      .ok (some (Hank.mk ⟨"m"⟩ none none none none [("u", 7)]),
        [.acquireWrite, .invokeUnit 7, .releaseLock], ()) ∧
    invokesUnlocked [.acquireWrite, .invokeUnit 7, .releaseLock] 0 = false := by
  exact ⟨rfl, rfl⟩

/-- C1 amended: handle_init acquires the read lock only long enough
to copy out the initialize handler reference, releases it, and invokes the
handler with no lock held; handle_scheduled_job, by contrast, acquires the
write lock and invokes the looked-up job while still holding it. -/
theorem C1_release_before_invoke :
    (∀ hank : Hank,
      handle_init (some hank) =
        .ok ([.acquireRead, .releaseLock] ++
          (hank.init_handler.map Event.invokeUnit).toList, ()) ∧
      invokesUnlocked ([.acquireRead, .releaseLock] ++
          (hank.init_handler.map Event.invokeUnit).toList) 0 = true) ∧
    (∀ (hank : Hank) (sj : ScheduledJob) (job : Handler),
      hank.scheduled_jobs.lookup sj.jobId = some job →
      handle_scheduled_job (some hank) ⟨some sj⟩ =
        .ok (some hank, [.acquireWrite, .invokeUnit job, .releaseLock], ()) ∧
      invokesUnlocked [.acquireWrite, .invokeUnit job, .releaseLock] 0 = false) := by
  constructor
  · intro hank
    cases h : hank.init_handler with
    | none => exact ⟨by simp [handle_init, h], rfl⟩
    | some f => exact ⟨by simp [handle_init, h], rfl⟩
  · intro hank sj job hjob
    refine ⟨?_, rfl⟩
    simp [handle_scheduled_job, Hank.scheduled_job_handler, hjob]

/-- Witness for C1: the amended theorem applied to a state whose table
binds "u" to job 7, delivered a cron echo for "u". -/
theorem C1_witness :
    handle_scheduled_job
        (some (Hank.mk ⟨"w"⟩ none none none none [("u", 7)]))
        ⟨some (.cronJob "c" "u")⟩ =
      .ok (some (Hank.mk ⟨"w"⟩ none none none none [("u", 7)]),
        [.acquireWrite, .invokeUnit 7, .releaseLock], ()) ∧
    invokesUnlocked [.acquireWrite, .invokeUnit 7, .releaseLock] 0 = false :=
  C1_release_before_invoke.2 (Hank.mk ⟨"w"⟩ none none none none [("u", 7)])
    (.cronJob "c" "u") 7 rfl

/-- C3: registering a cron job with schedule S under a drawn identifier
uuid that is fresh (the uuid generator's contract) inserts uuid bound to
the job J into the scheduled-job table, keeping every prior entry; sends
the host exactly one registration request carrying S together with that
same identifier; and every later delivery of that identifier through the
scheduled-job entry point invokes J exactly once per delivery, leaving the
state unchanged. -/
theorem C3_cron_registration (hank : Hank) (uuid S : String) (J : Handler)
    (hfresh : ∀ p ∈ hank.scheduled_jobs, p.1 ≠ uuid) :
    Hank.cron (some hank) uuid S J =
      .ok (some ((hank.add_cron uuid S J).1),
        [.acquireWrite, .hostCron S uuid, .releaseLock]) ∧
    ((hank.add_cron uuid S J).1).scheduled_jobs = (uuid, J) :: hank.scheduled_jobs ∧
    ((hank.add_cron uuid S J).1).scheduled_jobs.lookup uuid = some J ∧
    (∀ sj : ScheduledJob, sj.jobId = uuid →
      handle_scheduled_job (some ((hank.add_cron uuid S J).1)) ⟨some sj⟩ =
        .ok (some ((hank.add_cron uuid S J).1),
          [.acquireWrite, .invokeUnit J, .releaseLock], ()) ∧
      invocations [.acquireWrite, .invokeUnit J, .releaseLock] = [.invokeUnit J]) := by
  have htbl : ((hank.add_cron uuid S J).1).scheduled_jobs =
      (uuid, J) :: hank.scheduled_jobs := by
    simp only [Hank.add_cron, insertJob]
    congr 1
    refine List.filter_eq_self.mpr ?_
    intro p hp
    simpa using hfresh p hp
  have hlook : ((hank.add_cron uuid S J).1).scheduled_jobs.lookup uuid = some J := by
    rw [htbl]
    simp [List.lookup]
  refine ⟨rfl, htbl, hlook, ?_⟩
  intro sj hsj
  refine ⟨?_, rfl⟩
  simp [handle_scheduled_job, Hank.scheduled_job_handler, hsj, hlook]

/-- Witness for C3: registering a cron job on a fresh state and replaying
the identifier through a cron echo. -/
theorem C3_witness :
    Hank.cron (some (Hank.new ⟨"m"⟩)) "u" "s" 3 =
      .ok (some (((Hank.new ⟨"m"⟩).add_cron "u" "s" 3).1),
        [.acquireWrite, .hostCron "s" "u", .releaseLock]) ∧
    (((Hank.new ⟨"m"⟩).add_cron "u" "s" 3).1).scheduled_jobs = [("u", 3)] ∧
    handle_scheduled_job (some (((Hank.new ⟨"m"⟩).add_cron "u" "s" 3).1))
        ⟨some (.cronJob "c" "u")⟩ =
      .ok (some (((Hank.new ⟨"m"⟩).add_cron "u" "s" 3).1),
        [.acquireWrite, .invokeUnit 3, .releaseLock], ()) := by
  have h := C3_cron_registration (Hank.new ⟨"m"⟩) "u" "s" 3 (by simp [Hank.new])
  exact ⟨h.1, h.2.1, (h.2.2.2 (.cronJob "c" "u") rfl).1⟩

/-- C5 counterexample: the claim asserts every entry point other than
start panics when the state slot is still None; the scheduled-job entry
point invoked on the uninstalled slot with a payload carrying no job echo
returns the normal empty acknowledgement instead of panicking. -/
theorem C5_counterexample :
    handle_scheduled_job none ⟨none⟩ = .ok (none, [], ()) := rfl

/-- C5 amended: every host-invocable entry point other than start panics
when the state slot is still None, except that scheduled-job delivery
whose payload carries no job echo never observes the slot and returns the
empty acknowledgement; scheduled-job delivery with a job echo does panic
on the uninstalled slot. -/
theorem C5_uninstalled_panics :
    handle_get_metadata none = .error "Plugin did not initialize global HANK" ∧
    handle_install none = .error "Plugin did not initialize global HANK" ∧
    handle_init none = .error "Plugin did not initialize global HANK" ∧
    (∀ input : ChatMessageInput,
      handle_chat_message none input = .error "Plugin did not initialize global HANK") ∧
    (∀ input : ChatCommandInput,
      handle_chat_command none input = .error "Plugin did not initialize global HANK") ∧
    (∀ sj : ScheduledJob,
      handle_scheduled_job none ⟨some sj⟩ =
        .error "Plugin did not initialize global HANK") ∧
    handle_scheduled_job none ⟨none⟩ = .ok (none, [], ()) :=
  ⟨rfl, rfl, rfl, fun _ => rfl, fun _ => rfl, fun _ => rfl, rfl⟩

/-- C7 counterexample: the claim asserts chat-command delivery aborts when
context or message is missing and that scheduled-job delivery fails fast
when the job echo is missing; on a state with no handlers registered,
chat-command and chat-message deliveries with missing sub-fields return
the empty acknowledgement, and scheduled-job delivery with a missing echo
returns the empty acknowledgement on any slot. -/
theorem C7_counterexample :
    handle_scheduled_job (some (Hank.new ⟨"m"⟩)) ⟨none⟩ =
      .ok (some (Hank.new ⟨"m"⟩), [], ()) ∧
    handle_chat_command (some (Hank.new ⟨"m"⟩)) ⟨none, none⟩ =
      .ok ([.acquireRead, .releaseLock], ()) ∧
    handle_chat_message (some (Hank.new ⟨"m"⟩)) ⟨none⟩ =
      .ok ([.acquireRead, .releaseLock], ()) :=
  ⟨rfl, rfl, rfl⟩

/-- C7 amended: when a chat-command handler is registered, chat-command
delivery panics on a missing context (and on a missing message when the
context is present); when a chat-message handler is registered,
chat-message delivery panics on a missing message; with no handler
registered these deliveries return the empty acknowledgement without
touching the payload; and scheduled-job delivery with a missing job echo
does not fail fast — it returns the empty acknowledgement without
observing the state slot. -/
theorem C7_missing_subfield_panics :
    (∀ (hank : Hank) (f : Handler) (msg : Option Message),
      hank.chat_command_handler = some f →
      handle_chat_command (some hank) ⟨none, msg⟩ = .error "context should exist") ∧
    (∀ (hank : Hank) (f : Handler) (c : CommandContext),
      hank.chat_command_handler = some f →
      handle_chat_command (some hank) ⟨some c, none⟩ = .error "message should exist") ∧
    (∀ (hank : Hank) (f : Handler),
      hank.chat_message_handler = some f →
      handle_chat_message (some hank) ⟨none⟩ = .error "message should exist") ∧
    (∀ slot : Option Hank, handle_scheduled_job slot ⟨none⟩ = .ok (slot, [], ())) := by
  refine ⟨?_, ?_, ?_, fun _ => rfl⟩
  · intro hank f msg hreg
    simp [handle_chat_command, hreg]
  · intro hank f c hreg
    simp [handle_chat_command, hreg]
  · intro hank f hreg
    simp [handle_chat_message, hreg]

/-- Witness for C7: a state with chat-message handler 1 and chat-command
handler 2 registered panics on the missing sub-fields. -/
theorem C7_witness :
    handle_chat_command (some (Hank.mk ⟨"m"⟩ none none (some 1) (some 2) []))
        ⟨none, none⟩ = .error "context should exist" ∧
    handle_chat_command (some (Hank.mk ⟨"m"⟩ none none (some 1) (some 2) []))
        ⟨some ⟨"ctx"⟩, none⟩ = .error "message should exist" ∧
    handle_chat_message (some (Hank.mk ⟨"m"⟩ none none (some 1) (some 2) []))
        ⟨none⟩ = .error "message should exist" :=
  ⟨C7_missing_subfield_panics.1 (Hank.mk ⟨"m"⟩ none none (some 1) (some 2) []) 2 none rfl,
   C7_missing_subfield_panics.2.1 (Hank.mk ⟨"m"⟩ none none (some 1) (some 2) []) 2 ⟨"ctx"⟩ rfl,
   C7_missing_subfield_panics.2.2.1 (Hank.mk ⟨"m"⟩ none none (some 1) (some 2) []) 1 rfl⟩

/-- C8 counterexample: the claim asserts that once a state is installed no
later operation, including a second call to start, replaces it; starting
with state "a" installed, a second start with state "b" leaves the slot
holding state "b", not state "a". -/
theorem C8_counterexample :
    Hank.start (Hank.start none (Hank.new ⟨"a"⟩)) (Hank.new ⟨"b"⟩) ≠
      Hank.start none (Hank.new ⟨"a"⟩) := by
  decide

/-- C8 amended: the slot never returns to None — start always installs the
state passed to it, job registration on an installed slot mutates that
same state in place (the metadata and the four handler slots are kept;
only the scheduled-job table gains the new binding), and scheduled-job
delivery on an installed slot returns it unchanged — but installation is
last-write-wins, not once-only: a second call to start overwrites the
installed state with the new one. -/
theorem C8_slot_never_uninstalls :
    (∀ (slot : Option Hank) (self : Hank), Hank.start slot self = some self) ∧
    (∀ (hank : Hank) (uuid cron : String) (job : Handler),
      ∃ hank2, Hank.cron (some hank) uuid cron job =
          .ok (some hank2, [.acquireWrite, .hostCron cron uuid, .releaseLock]) ∧
        hank2.metadata = hank.metadata ∧
        hank2.install_handler = hank.install_handler ∧
        hank2.init_handler = hank.init_handler ∧
        hank2.chat_message_handler = hank.chat_message_handler ∧
        hank2.chat_command_handler = hank.chat_command_handler ∧
        hank2.scheduled_jobs = insertJob hank.scheduled_jobs uuid job) ∧
    (∀ (hank : Hank) (uuid : String) (d : Int) (job : Handler),
      ∃ hank2, Hank.one_shot (some hank) uuid d job =
          .ok (some hank2, [.acquireWrite, .hostOneShot d uuid, .releaseLock]) ∧
        hank2.metadata = hank.metadata ∧
        hank2.install_handler = hank.install_handler ∧
        hank2.init_handler = hank.init_handler ∧
        hank2.chat_message_handler = hank.chat_message_handler ∧
        hank2.chat_command_handler = hank.chat_command_handler ∧
        hank2.scheduled_jobs = insertJob hank.scheduled_jobs uuid job) ∧
    (∀ (hank : Hank) (input : ScheduledJobInput),
      (handle_scheduled_job (some hank) input).map (fun r => r.1) = .ok (some hank)) := by
  refine ⟨fun _ _ => rfl, ?_, ?_, ?_⟩
  · intro hank uuid cron job
    exact ⟨(hank.add_cron uuid cron job).1, rfl, rfl, rfl, rfl, rfl, rfl, rfl⟩
  · intro hank uuid d job
    exact ⟨(hank.add_one_shot uuid d job).1, rfl, rfl, rfl, rfl, rfl, rfl, rfl⟩
  · intro hank input
    obtain ⟨sj⟩ := input
    cases sj with
    | none => rfl
    | some s => rfl

end HankPdk
